import Mathlib

/-!
Verification of the permission-scoped aggregation, status-derivation and
survey logic of the consultas_app_cliente backend, as a shallow embedding.

The warehouse tables are modelled as Lean lists of rows; SQL joins are
modelled as list binds (one output row per matching pair), SQL aggregates
over an empty input produce `none` (SQL NULL), and each endpoint handler is
translated from the Python source in src/routers and src/dependencies.
Timestamps are modelled as integers, percentages as rationals.
-/

/-! ## Data model -/

/-- A row of `usuario_instalaciones`: grants (or denies, via `puede_ver`)
a user visibility over the installation `(cliente_rol, instalacion_rol)`. -/
structure UsuarioInstalacion where
  email_login : String
  cliente_rol : String
  instalacion_rol : String
  puede_ver : Bool
deriving DecidableEq, Repr

/-- A row of the aggregated coverage fact table (`TABLE_COBERTURA_AGREGADA`)
with the columns the general-coverage endpoint reads. -/
structure CoberturaAgregada where
  cliente_rol : String
  instalacion_rol : String
  total_guardias_requeridos : Nat
  guardias_presentes : Nat
deriving DecidableEq, Repr

/-- A row of the per-shift coverage fact table (`TABLE_COBERTURA`,
cobertura_instantanea), restricted to the columns relevant to scoping.
The table has a `cliente_rol` column: sibling queries in
src/routers/cobertura.py join it on both keys. -/
structure CoberturaTurno where
  cliente_rol : String
  instalacion_rol : String
  turno : String
deriving DecidableEq, Repr

/-- The slice of the warehouse that the coverage endpoints read. -/
structure CoberturaDB where
  usuario_instalaciones : List UsuarioInstalacion
  cobertura_agregada : List CoberturaAgregada
  cobertura_instantanea : List CoberturaTurno
deriving DecidableEq, Repr

/-- A row of `encuestas_solicitudes` (a survey request). -/
structure Encuesta where
  encuesta_id : String
  periodo : String
  cliente_rol : String
  instalacion_rol : String
  modo : String
  email_destinatario : Option String
  estado : String
  fecha_limite : Int
  respondido_por_email : Option String
  respondido_por_nombre : Option String
  tipo_respuesta : Option String
  fecha_respuesta : Option Int
deriving DecidableEq, Repr

/-- A row of `encuestas_respuestas` (one answer of a completed survey).
The source also stamps each row with a freshly generated uuid
(`respuesta_id`); that identifier is external nondeterminism no claim
mentions, so it is omitted from the embedding. -/
structure Respuesta where
  encuesta_id : String
  pregunta_id : Option String
  respuesta_valor : Option String
  comentario_adicional : Option String
  fecha_respuesta : Int
deriving DecidableEq, Repr

/-- The slice of the warehouse that the survey endpoints read and write. -/
structure EncuestasDB where
  solicitudes : List Encuesta
  respuestas : List Respuesta
deriving DecidableEq, Repr

/-- One submitted answer in the request body of the respond endpoint
(`RespuestaEncuestaRequest.respuestas`, a list of loose dictionaries read
with `.get`, hence every field optional). -/
structure AnswerInput where
  pregunta_id : Option String
  respuesta_valor : Option String
  comentario : Option String
deriving DecidableEq, Repr

/-- A row of `usuarios_app` restricted to the columns the credential
migration in src/dependencies.py touches. -/
structure Usuario where
  email_login : String
  firebase_uid : Option String
deriving DecidableEq, Repr

/-- The distinct failure modes raised by the survey endpoints
(HTTP 404 / 403 / 400 variants / 500). -/
inductive RespError where
  | notFound
  | forbidden
  | yaRespondidaPorOtro
  | expirada
  | yaRespondida
  | insertError
  | noRespondida
deriving DecidableEq, Repr

/-! ## Status derivation (src/utils/semaforo.py, src/config.py) -/

/-- Default green threshold from src/config.py (`"0.95"`). -/
def SEMAFORO_VERDE : ℚ := 95 / 100

/-- Default yellow threshold from src/config.py (`"0.80"`). -/
def SEMAFORO_AMARILLO : ℚ := 80 / 100

/-- `calcular_estado_semaforo` from src/utils/semaforo.py. -/
def calcular_estado_semaforo (porcentaje : ℚ) : String :=
  if porcentaje ≥ SEMAFORO_VERDE * 100 then "VERDE"
  else if porcentaje ≥ SEMAFORO_AMARILLO * 100 then "AMARILLO"
  else "ROJO"

/-- Reference classifier, written from the words of the spec: GREEN if
`percentage >= green_threshold*100`, else YELLOW if
`percentage >= yellow_threshold*100`, else RED, thresholds being inclusive
lower bounds. -/
def clasificar_spec (verde amarillo porcentaje : ℚ) : String :=
  if porcentaje ≥ verde * 100 then "VERDE"
  else if porcentaje ≥ amarillo * 100 then "AMARILLO"
  else "ROJO"

/-! ## Survey period computation (src/routers/encuestas.py, lines 35-57) -/

/-- Zero-padding on the left to `k` digits, the embedding of the Python
format specifiers `{year:04d}` and `{month:02d}`. -/
def pad_izq (k : Nat) (n : Nat) : String :=
  let s := toString n
  String.mk (List.replicate (k - s.length) '0') ++ s

/-- The bimonthly period-key pair `(periodo_en_curso, periodo_anterior)`
computed by `obtener_mis_encuestas` from the current year and month. -/
def periodos_validos (year_actual month_actual : Nat) : String × String :=
  if month_actual % 2 == 0 then
    let periodo_en_curso := pad_izq 4 year_actual ++ pad_izq 2 month_actual
    let periodo_anterior :=
      if month_actual == 2 then pad_izq 4 (year_actual - 1) ++ "12"
      else pad_izq 4 year_actual ++ pad_izq 2 (month_actual - 2)
    (periodo_en_curso, periodo_anterior)
  else
    if month_actual == 1 then
      (pad_izq 4 (year_actual - 1) ++ "12", pad_izq 4 (year_actual - 1) ++ "10")
    else
      let mes_par_anterior := month_actual - 1
      let periodo_en_curso := pad_izq 4 year_actual ++ pad_izq 2 mes_par_anterior
      let periodo_anterior :=
        if mes_par_anterior == 2 then pad_izq 4 (year_actual - 1) ++ "12"
        else pad_izq 4 year_actual ++ pad_izq 2 (mes_par_anterior - 2)
      (periodo_en_curso, periodo_anterior)

/-- The most recent even month at or before `(y, m)`, written from the
words of the spec: if the month is odd, roll back one month. -/
def mes_par_reciente (y m : Nat) : Nat × Nat :=
  if m % 2 == 0 then (y, m)
  else if m == 1 then (y - 1, 12)
  else (y, m - 1)

/-- Exactly two months before a `(year, month)` pair, with year rollover
at the January/December boundary, written from the words of the spec. -/
def dos_meses_antes (ym : Nat × Nat) : Nat × Nat :=
  if ym.2 ≤ 2 then (ym.1 - 1, ym.2 + 10) else (ym.1, ym.2 - 2)

/-- `YYYYMM` key of a `(year, month)` pair. -/
def clave_periodo (ym : Nat × Nat) : String :=
  pad_izq 4 ym.1 ++ pad_izq 2 ym.2

/-- Reference period pair, written from the words of the spec: the key of
the most recent even month, and the key of the month two months earlier. -/
def periodos_spec (y m : Nat) : String × String :=
  (clave_periodo (mes_par_reciente y m),
   clave_periodo (dos_meses_antes (mes_par_reciente y m)))

/-! ## WFSA role sets (src/routers/encuestas.py) -/

/-- The operator-side role set used by `obtener_mis_encuestas`
(line 32 of src/routers/encuestas.py). -/
def es_wfsa_listado (rol : String) : Bool :=
  ["ADMIN_WFSA", "SUBGERENTE_WFSA", "JEFE_WFSA", "SUPERVISOR_WFSA"].contains rol

/-- The operator-side role set used by `ver_respuestas_encuesta`
(line 432 of src/routers/encuestas.py). -/
def es_wfsa_respuestas (rol : String) : Bool :=
  ["ADMIN_WFSA", "SUBGERENTE_JEFE_WFSA", "SUPERVISOR_WFSA"].contains rol

/-- The per-row `puede_ver_respuestas` flag computed by the grouping loop
of `obtener_mis_encuestas` for a survey row. -/
def puede_ver_respuestas_listado (es_wfsa : Bool) (e : Encuesta) (user_email : String) : Bool :=
  if e.estado == "completada" then
    if es_wfsa then true
    else if e.modo == "compartida" then true
    else if e.modo == "individual" && e.email_destinatario == some user_email then true
    else false
  else false

/-! ## Survey respond operation (src/routers/encuestas.py, responder_encuesta) -/

/-- The coarse response-origin tag recorded on completion:
`tipo_respuesta = 'cliente' if rol_usuario == 'CLIENTE' else 'wfsa'`. -/
def tipo_respuesta_de (rol_id : String) : String :=
  if rol_id == "CLIENTE" then "cliente" else "wfsa"

/-- The completed version of a survey row, as written by the UPDATE of
`responder_encuesta`. -/
def completar (user_email user_nombre tipo : String) (now : Int) (r : Encuesta) : Encuesta :=
  { r with estado := "completada", respondido_por_email := some user_email,
           respondido_por_nombre := some user_nombre, tipo_respuesta := some tipo,
           fecha_respuesta := some now }

/-- The conditional UPDATE of `responder_encuesta`: set the survey to
completed, recording the responder, on rows matching the id that are
still pending (`WHERE encuesta_id = @encuesta_id AND estado = 'pendiente'`). -/
def marcar_completada (rows : List Encuesta) (eid user_email user_nombre tipo : String)
    (now : Int) : List Encuesta :=
  rows.map fun r =>
    if r.encuesta_id == eid && r.estado == "pendiente"
    then completar user_email user_nombre tipo now r
    else r

/-- The precondition checks of `responder_encuesta`, in source order,
returning the failure raised first (or `none` when all pass):
lookup by id (`LIMIT 1`), individual-mode recipient check, shared-mode
already-completed check, expiry check, duplicate-submission check. -/
def precondicion_fallida (db : EncuestasDB) (eid user_email : String) (now : Int) :
    Option RespError :=
  match db.solicitudes.find? (fun e => e.encuesta_id == eid) with
  | none => some .notFound
  | some e =>
    if e.modo == "individual" && e.email_destinatario != some user_email then
      some .forbidden
    else if e.modo == "compartida" && e.estado == "completada" then
      some .yaRespondidaPorOtro
    else if e.fecha_limite < now then
      some .expirada
    else if e.estado == "completada" && e.respondido_por_email == some user_email then
      some .yaRespondida
    else none

/-- The write phase of `responder_encuesta`: insert one answer row per
submitted answer, all stamped with the same timestamp, then run the
conditional completion UPDATE; returns the new state and the count
`len(respuestas_para_insertar)` reported to the caller. -/
def responder_escritura (db : EncuestasDB) (eid user_email user_nombre rol_id : String)
    (answers : List AnswerInput) (now : Int) : EncuestasDB × Nat :=
  let nuevas : List Respuesta := answers.map fun a =>
    { encuesta_id := eid, pregunta_id := a.pregunta_id,
      respuesta_valor := a.respuesta_valor, comentario_adicional := a.comentario,
      fecha_respuesta := now }
  let db1 : EncuestasDB :=
    { respuestas := db.respuestas ++ nuevas,
      solicitudes := marcar_completada db.solicitudes eid user_email user_nombre
        (tipo_respuesta_de rol_id) now }
  (db1, nuevas.length)

/-- `responder_encuesta`: run the precondition checks against the current
state; if they pass, attempt the answer insert (`insert_errors` models the
warehouse reporting insert errors, which the source maps to a 500), then
apply the conditional completion UPDATE and report success with the count
of answers persisted. The success value never inspects how many rows the
conditional UPDATE matched. -/
def responder_encuesta (db : EncuestasDB) (eid user_email user_nombre rol_id : String)
    (answers : List AnswerInput) (now : Int) (insert_errors : Bool) :
    EncuestasDB × Except RespError Nat :=
  match precondicion_fallida db eid user_email now with
  | some err => (db, .error err)
  | none =>
    if insert_errors then (db, .error .insertError)
    else
      let r := responder_escritura db eid user_email user_nombre rol_id answers now
      (r.1, .ok r.2)

/-- Two respond calls racing on the same survey: both run their
precondition checks against the same snapshot `db0` (both reads happen
before either write), then the writes are applied sequentially, the A
caller first. Each caller returns exactly what `responder_encuesta`
returns on its path: an error if its read-time checks failed, success
with its answer count otherwise. -/
def respuesta_carrera (db0 : EncuestasDB) (eid : String)
    (emailA nombreA rolA emailB nombreB rolB : String)
    (answersA answersB : List AnswerInput) (now : Int) :
    EncuestasDB × Except RespError Nat × Except RespError Nat :=
  match precondicion_fallida db0 eid emailA now, precondicion_fallida db0 eid emailB now with
  | some errA, some errB => (db0, .error errA, .error errB)
  | some errA, none =>
    let rB := responder_escritura db0 eid emailB nombreB rolB answersB now
    (rB.1, .error errA, .ok rB.2)
  | none, some errB =>
    let rA := responder_escritura db0 eid emailA nombreA rolA answersA now
    (rA.1, .ok rA.2, .error errB)
  | none, none =>
    let rA := responder_escritura db0 eid emailA nombreA rolA answersA now
    let rB := responder_escritura rA.1 eid emailB nombreB rolB answersB now
    (rB.1, .ok rA.2, .ok rB.2)

/-! ## View-responses operation (src/routers/encuestas.py, ver_respuestas_encuesta) -/

/-- `ver_respuestas_encuesta`: lookup by id, then the individual-mode
ownership check (skipped for WFSA roles), then the completed-state check,
then the answer rows of the survey (the join with the question table only
decorates each row with its question text, so the embedding returns the
answer rows). -/
def ver_respuestas_encuesta (db : EncuestasDB) (eid user_email rol : String) :
    Except RespError (List Respuesta) :=
  let es_wfsa := es_wfsa_respuestas rol
  match db.solicitudes.find? (fun e => e.encuesta_id == eid) with
  | none => .error .notFound
  | some e =>
    if !es_wfsa && (e.modo == "individual" && e.email_destinatario != some user_email) then
      .error .forbidden
    else if e.estado != "completada" then
      .error .noRespondida
    else
      .ok (db.respuestas.filter (fun r => r.encuesta_id == eid))

/-! ## Scope-filtered coverage queries (src/routers/cobertura.py) -/

/-- The installations the principal is explicitly granted visibility over:
the `(cliente_rol, instalacion_rol)` pairs of their `usuario_instalaciones`
rows with `puede_ver = TRUE`. -/
def instalaciones_visibles (db : CoberturaDB) (user_email : String) :
    List (String × String) :=
  (db.usuario_instalaciones.filter fun ui =>
    ui.email_login == user_email && ui.puede_ver).map fun ui =>
      (ui.cliente_rol, ui.instalacion_rol)

/-- The joined row set of the shift-detail query of
`get_detalle_todas_instalaciones` (src/routers/cobertura.py lines 424-429):
an INNER JOIN of the shift fact table against `usuario_instalaciones`
whose ON clause matches `instalacion_rol` only (one output row per
matching visibility row). -/
def detalle_turnos_todas (db : CoberturaDB) (user_email : String) : List CoberturaTurno :=
  db.cobertura_instantanea.flatMap fun ci =>
    (db.usuario_instalaciones.filter fun ui =>
      ci.instalacion_rol == ui.instalacion_rol &&
      ui.email_login == user_email && ui.puede_ver).map fun _ => ci

/-- Reference join for the scope claim, written from the words of the
spec: the mandatory join matches the fact table and the visibility
relation on both keys `(cliente_rol, instalacion_rol)` and filters to
rows with `puede_ver = TRUE`. -/
def detalle_turnos_todas_spec (db : CoberturaDB) (user_email : String) : List CoberturaTurno :=
  db.cobertura_instantanea.flatMap fun ci =>
    (db.usuario_instalaciones.filter fun ui =>
      ci.cliente_rol == ui.cliente_rol && ci.instalacion_rol == ui.instalacion_rol &&
      ui.email_login == user_email && ui.puede_ver).map fun _ => ci

/-- The joined row set of the `get_cobertura_general` aggregate query
(src/routers/cobertura.py lines 49-54): this one does join on both keys
and filters to `puede_ver = TRUE`. -/
def filas_agregadas_visibles (db : CoberturaDB) (user_email : String) :
    List CoberturaAgregada :=
  db.cobertura_agregada.flatMap fun ci =>
    (db.usuario_instalaciones.filter fun ui =>
      ci.cliente_rol == ui.cliente_rol && ci.instalacion_rol == ui.instalacion_rol &&
      ui.email_login == user_email && ui.puede_ver).map fun _ => ci

/-- `ROUND(x, 2)` of BigQuery on a nonnegative rational: round half away
from zero at the second decimal. -/
def redondear2 (q : ℚ) : ℚ := (round (q * 100) : ℤ) / 100

/-- The response of `/api/cobertura/instantanea/general`, restricted to
the fields the claims mention plus the two aggregate counts. -/
structure CoberturaGeneral where
  total_turnos_activos : Option Nat
  turnos_cubiertos : Option Nat
  porcentaje_cobertura_general : ℚ
  estado_semaforo : String
deriving DecidableEq, Repr

/-- `get_cobertura_general`: SQL aggregates over the scoped join (SUM over
no input rows is NULL, modelled as `none`; `SAFE_DIVIDE` with a `NULLIF`
denominator yields NULL on a zero denominator), then the Python handler:
the gray branch fires when `total_turnos_activos == 0` (Python `None == 0`
is false, so a NULL total falls through to the general branch), and a NULL
percentage is coerced to `0` before classification. -/
def get_cobertura_general (db : CoberturaDB) (user_email : String) : CoberturaGeneral :=
  let filas := filas_agregadas_visibles db user_email
  let total : Option Nat :=
    if filas.isEmpty then none
    else some ((filas.map (fun ci => ci.total_guardias_requeridos)).sum)
  let cubiertos : Option Nat :=
    if filas.isEmpty then none
    else some ((filas.map (fun ci => ci.guardias_presentes)).sum)
  let pct_sql : Option ℚ :=
    match total, cubiertos with
    | some req, some pres =>
      if req == 0 then none else some (redondear2 ((pres : ℚ) / (req : ℚ) * 100))
    | _, _ => none
  if total == some 0 then
    { total_turnos_activos := some 0, turnos_cubiertos := some 0,
      porcentaje_cobertura_general := 0, estado_semaforo := "GRIS" }
  else
    let porcentaje : ℚ :=
      match pct_sql with
      | some q => q
      | none => 0
    { total_turnos_activos := total, turnos_cubiertos := cubiertos,
      porcentaje_cobertura_general := porcentaje,
      estado_semaforo := calcular_estado_semaforo porcentaje }

/-! ## Credential migration (src/dependencies.py, verify_firebase_token) -/

/-- The WHERE predicate of the migration UPDATE:
`email_login = @user_email AND (firebase_uid IS NULL OR
firebase_uid != @firebase_uid)`. -/
def necesita_migracion (firebase_uid user_email : String) (u : Usuario) : Bool :=
  u.email_login == user_email &&
    (u.firebase_uid == none || u.firebase_uid != some firebase_uid)

/-- The migration UPDATE: set `firebase_uid` on every row matching the
predicate. -/
def migrar_firebase_uid (firebase_uid user_email : String) (usuarios : List Usuario) :
    List Usuario :=
  usuarios.map fun u =>
    if necesita_migracion firebase_uid user_email u
    then { u with firebase_uid := some firebase_uid }
    else u

/-- The number of stored rows the migration UPDATE modifies. -/
def filas_modificadas (firebase_uid user_email : String) (usuarios : List Usuario) : Nat :=
  (usuarios.filter (necesita_migracion firebase_uid user_email)).length

/-! ## Concrete warehouse states used as test inputs -/

/-- A state with a visibility grant for the installation of tenant
CLIENTE_A and a shift fact row of the same installation name under
tenant CLIENTE_B. -/
def dbFuga : CoberturaDB :=
  { usuario_instalaciones :=
      [{ email_login := "cliente@a.cl", cliente_rol := "CLIENTE_A",
         instalacion_rol := "INST_X", puede_ver := true }],
    cobertura_agregada := [],
    cobertura_instantanea :=
      [{ cliente_rol := "CLIENTE_B", instalacion_rol := "INST_X", turno := "T1" }] }

/-- A state in which the principal has no visible coverage rows at all. -/
def dbVacia : CoberturaDB :=
  { usuario_instalaciones := [], cobertura_agregada := [], cobertura_instantanea := [] }

/-- A state with one visible aggregated coverage row requiring zero guards. -/
def dbCeroRequeridos : CoberturaDB :=
  { usuario_instalaciones :=
      [{ email_login := "u@x.cl", cliente_rol := "CL1",
         instalacion_rol := "INST1", puede_ver := true }],
    cobertura_agregada :=
      [{ cliente_rol := "CL1", instalacion_rol := "INST1",
         total_guardias_requeridos := 0, guardias_presentes := 0 }],
    cobertura_instantanea := [] }

/-- A pending individual survey addressed to a specific recipient. -/
def encuestaIndividual : Encuesta :=
  { encuesta_id := "E1", periodo := "202510", cliente_rol := "CL1",
    instalacion_rol := "INST1", modo := "individual",
    email_destinatario := some "destinatario@cliente.cl", estado := "pendiente",
    fecha_limite := 100, respondido_por_email := none, respondido_por_nombre := none,
    tipo_respuesta := none, fecha_respuesta := none }

def dbIndividual : EncuestasDB :=
  { solicitudes := [encuestaIndividual], respuestas := [] }

/-- A completed individual survey, answered by an operator-side user who
is not its addressed recipient. -/
def encuestaIndividualRespondida : Encuesta :=
  { encuesta_id := "E9", periodo := "202510", cliente_rol := "CL1",
    instalacion_rol := "INST1", modo := "individual",
    email_destinatario := some "destinatario@cliente.cl", estado := "completada",
    fecha_limite := 100, respondido_por_email := some "supervisor@wfsa.cl",
    respondido_por_nombre := some "Supervisor", tipo_respuesta := some "wfsa",
    fecha_respuesta := some 50 }

def dbIndividualRespondida : EncuestasDB :=
  { solicitudes := [encuestaIndividualRespondida], respuestas := [] }

/-- A pending shared survey. -/
def encuestaCompartida : Encuesta :=
  { encuesta_id := "E2", periodo := "202510", cliente_rol := "CL1",
    instalacion_rol := "INST1", modo := "compartida", email_destinatario := none,
    estado := "pendiente", fecha_limite := 100, respondido_por_email := none,
    respondido_por_nombre := none, tipo_respuesta := none, fecha_respuesta := none }

def dbCompartida : EncuestasDB :=
  { solicitudes := [encuestaCompartida], respuestas := [] }

/-- A pending shared survey whose due timestamp is already in the past
for a caller at time 20. -/
def encuestaExpirada : Encuesta :=
  { encuesta_id := "E3", periodo := "202508", cliente_rol := "CL1",
    instalacion_rol := "INST1", modo := "compartida", email_destinatario := none,
    estado := "pendiente", fecha_limite := 10, respondido_por_email := none,
    respondido_por_nombre := none, tipo_respuesta := none, fecha_respuesta := none }

def dbExpirada : EncuestasDB :=
  { solicitudes := [encuestaExpirada], respuestas := [] }

/-- One submitted answer. -/
def unaRespuesta : AnswerInput :=
  { pregunta_id := some "P1", respuesta_valor := some "5", comentario := none }

/-! ## Helper lemmas -/

theorem encontrar_de_filtro {α : Type} (p : α → Bool) :
    ∀ (l : List α) (e : α), l.filter p = [e] → l.find? p = some e := by
  intro l e
  induction l with
  | nil => simp
  | cons a rest ih =>
    intro h
    cases hp : p a <;> simp [List.filter_cons, hp, List.find?_cons] at h ⊢
    · exact ih h
    · exact h.1

theorem marcar_identidad (eid em nm tp : String) (now : Int) :
    ∀ rows : List Encuesta,
      (∀ r ∈ rows, (r.encuesta_id == eid && r.estado == "pendiente") = false) →
      marcar_completada rows eid em nm tp now = rows := by
  intro rows h
  induction rows with
  | nil => rfl
  | cons a rest ih =>
    simp only [marcar_completada, List.map_cons, h a (List.mem_cons_self a rest), if_false,
      Bool.false_eq_true]
    rw [List.cons_eq_cons]
    exact ⟨rfl, ih (fun r hr => h r (List.mem_cons_of_mem a hr))⟩

theorem marcar_filtro (eid em nm tp : String) (now : Int) (rows : List Encuesta) :
    (marcar_completada rows eid em nm tp now).filter (fun r => r.encuesta_id == eid) =
      (rows.filter (fun r => r.encuesta_id == eid)).map
        (fun r => if r.estado == "pendiente" then completar em nm tp now r else r) := by
  have hpres : ∀ r : Encuesta,
      (if r.encuesta_id == eid && r.estado == "pendiente"
       then completar em nm tp now r else r).encuesta_id = r.encuesta_id := by
    intro r
    by_cases h : (r.encuesta_id == eid && r.estado == "pendiente") = true
    · simp [h, completar]
    · simp [h]
  have hfil : rows.filter ((fun r => r.encuesta_id == eid) ∘ fun r =>
      if r.encuesta_id == eid && r.estado == "pendiente"
      then completar em nm tp now r else r)
      = rows.filter (fun r => r.encuesta_id == eid) :=
    List.filter_congr (fun r _ => by simp only [Function.comp_apply, hpres r])
  unfold marcar_completada
  rw [List.filter_map, hfil]
  apply List.map_congr_left
  intro r hr
  have hid : (r.encuesta_id == eid) = true := (List.mem_filter.mp hr).2
  simp [hid]

/-! ## Claim C1 -/

/-- Claim C1: the spec mandates that every tenant-scoped query joins the
fact table to the visibility relation on both keys and that no endpoint
returns a row referencing an installation outside the visible set. The
shift-detail query of `get_detalle_todas_instalaciones` joins on
`instalacion_rol` only: on the concrete state `dbFuga` it returns the
CLIENTE_B row to a principal whose visible set is only
`(CLIENTE_A, INST_X)`, while the both-keys join of the spec returns
nothing. -/
theorem C1_fuga_cruzada_detalle :
    detalle_turnos_todas dbFuga "cliente@a.cl" =
      [{ cliente_rol := "CLIENTE_B", instalacion_rol := "INST_X", turno := "T1" }] ∧
    instalaciones_visibles dbFuga "cliente@a.cl" = [("CLIENTE_A", "INST_X")] ∧
    ((instalaciones_visibles dbFuga "cliente@a.cl").contains ("CLIENTE_B", "INST_X")) = false ∧
    detalle_turnos_todas_spec dbFuga "cliente@a.cl" = [] := by
  refine ⟨by decide, by decide, by decide, by decide⟩

/-! ## Claim C2 -/

/-- Claim C2 counterexample: an operator-side principal (role ADMIN_WFSA,
a member of both WFSA role sets) whose email differs from
`email_destinatario` of a pending individual survey receives Forbidden
from the respond operation, where the claim promises success for
WFSA-role principals. -/
theorem C2_contraejemplo :
    es_wfsa_respuestas "ADMIN_WFSA" = true ∧
    es_wfsa_listado "ADMIN_WFSA" = true ∧
    (responder_encuesta dbIndividual "E1" "admin@wfsa.cl" "Admin" "ADMIN_WFSA"
        [unaRespuesta] 0 false).2 = .error .forbidden := by
  refine ⟨by decide, by decide, rfl⟩

/-- Claim C2 (amended): for an individual survey and a principal whose
email does not equal the addressed recipient, viewing respuestas returns
Forbidden unless the principal holds one of the operator-side roles
checked there, in which case viewing succeeds once the survey is
completed; respond, however, returns Forbidden for every such principal,
operator-side roles included. -/
theorem C2_enmendada (db : EncuestasDB) (eid user_email user_nombre rol_id : String)
    (answers : List AnswerInput) (now : Int) (insert_errors : Bool) (e : Encuesta) :
    db.solicitudes.find? (fun r => r.encuesta_id == eid) = some e →
    e.modo = "individual" → e.email_destinatario ≠ some user_email →
    ((responder_encuesta db eid user_email user_nombre rol_id answers now insert_errors).2 =
       .error .forbidden) ∧
    (es_wfsa_respuestas rol_id = false →
      ver_respuestas_encuesta db eid user_email rol_id = .error .forbidden) ∧
    (es_wfsa_respuestas rol_id = true → e.estado = "completada" →
      ver_respuestas_encuesta db eid user_email rol_id =
        .ok (db.respuestas.filter (fun r => r.encuesta_id == eid))) := by
  intro he hmodo hdest
  have hb : (e.modo == "individual" && e.email_destinatario != some user_email) = true := by
    simp [hmodo, hdest]
  refine ⟨?_, ?_, ?_⟩
  · simp [responder_encuesta, precondicion_fallida, he, hb]
  · intro hw
    simp [ver_respuestas_encuesta, he, hw, hmodo, hdest]
  · intro hw hest
    simp [ver_respuestas_encuesta, he, hw, hest]

/-- Witness for C2_enmendada at a concrete completed individual survey
and the ADMIN_WFSA principal. -/
theorem C2_testigo :
    ((responder_encuesta dbIndividualRespondida "E9" "admin@wfsa.cl" "Admin" "ADMIN_WFSA"
        [unaRespuesta] 0 false).2 = .error .forbidden) ∧
    (es_wfsa_respuestas "ADMIN_WFSA" = false →
      ver_respuestas_encuesta dbIndividualRespondida "E9" "admin@wfsa.cl" "ADMIN_WFSA" =
        .error .forbidden) ∧
    (es_wfsa_respuestas "ADMIN_WFSA" = true →
      encuestaIndividualRespondida.estado = "completada" →
      ver_respuestas_encuesta dbIndividualRespondida "E9" "admin@wfsa.cl" "ADMIN_WFSA" =
        .ok (dbIndividualRespondida.respuestas.filter (fun r => r.encuesta_id == "E9"))) :=
  C2_enmendada dbIndividualRespondida "E9" "admin@wfsa.cl" "Admin" "ADMIN_WFSA"
    [unaRespuesta] 0 false encuestaIndividualRespondida rfl rfl (by decide)

/-! ## Claim C3 -/

/-- Claim C3: for every current date the survey-period computation yields
the period key of the most recent even month at or before now and the key
of the month exactly two months earlier (with December rollover), and in
particular yields ("202412", "202410") for 2025-01 and
("202502", "202412") for 2025-03. -/
theorem C3_periodos :
    (∀ y m : Nat, 1 ≤ m → m ≤ 12 → periodos_validos y m = periodos_spec y m) ∧
    periodos_validos 2025 1 = ("202412", "202410") ∧
    periodos_validos 2025 3 = ("202502", "202412") := by
  refine ⟨fun y m h1 h12 => ?_, by decide, by decide⟩
  interval_cases m <;>
    simp [periodos_validos, periodos_spec, mes_par_reciente, dos_meses_antes, clave_periodo,
      show pad_izq 2 12 = "12" from rfl, show pad_izq 2 10 = "10" from rfl]

/-- Witness for C3_periodos at the concrete month 2025-07. -/
theorem C3_testigo : periodos_validos 2025 7 = periodos_spec 2025 7 :=
  C3_periodos.1 2025 7 (by norm_num) (by norm_num)

/-! ## Claim C4 -/

/-- Claim C4: the respond operation checks its preconditions in the fixed
order survey-exists, individual-recipient, shared-already-completed,
expiry, duplicate-submission, returning the failure of the first violated
precondition; in particular, once checks 1-3 pass and the due timestamp
is in the past, the result is Expired regardless of anything else. -/
theorem C4_orden_precondiciones (db : EncuestasDB)
    (eid user_email user_nombre rol_id : String)
    (answers : List AnswerInput) (now : Int) (insert_errors : Bool) :
    (db.solicitudes.find? (fun r => r.encuesta_id == eid) = none →
      (responder_encuesta db eid user_email user_nombre rol_id answers now insert_errors).2 =
        .error .notFound) ∧
    (∀ e, db.solicitudes.find? (fun r => r.encuesta_id == eid) = some e →
      ((e.modo == "individual" && e.email_destinatario != some user_email) = true →
        (responder_encuesta db eid user_email user_nombre rol_id answers now insert_errors).2 =
          .error .forbidden) ∧
      ((e.modo == "individual" && e.email_destinatario != some user_email) = false →
        (e.modo == "compartida" && e.estado == "completada") = true →
        (responder_encuesta db eid user_email user_nombre rol_id answers now insert_errors).2 =
          .error .yaRespondidaPorOtro) ∧
      ((e.modo == "individual" && e.email_destinatario != some user_email) = false →
        (e.modo == "compartida" && e.estado == "completada") = false →
        e.fecha_limite < now →
        (responder_encuesta db eid user_email user_nombre rol_id answers now insert_errors).2 =
          .error .expirada) ∧
      ((e.modo == "individual" && e.email_destinatario != some user_email) = false →
        (e.modo == "compartida" && e.estado == "completada") = false →
        ¬ e.fecha_limite < now →
        (e.estado == "completada" && e.respondido_por_email == some user_email) = true →
        (responder_encuesta db eid user_email user_nombre rol_id answers now insert_errors).2 =
          .error .yaRespondida)) := by
  constructor
  · intro h
    simp [responder_encuesta, precondicion_fallida, h]
  · intro e he
    refine ⟨?_, ?_, ?_, ?_⟩
    · intro h2
      simp [responder_encuesta, precondicion_fallida, he, h2]
    · intro h2 h3
      simp [responder_encuesta, precondicion_fallida, he, h2, h3]
    · intro h2 h3 h4
      simp [responder_encuesta, precondicion_fallida, he, h2, h3, h4]
    · intro h2 h3 h4 h5
      simp [responder_encuesta, precondicion_fallida, he, h2, h3, h4, h5]

/-- Witness for C4_orden_precondiciones: a concrete call past the due
timestamp, with checks 1-3 passing, returns Expired. -/
theorem C4_testigo :
    (responder_encuesta dbExpirada "E3" "u@cliente.cl" "U" "CLIENTE"
        [unaRespuesta] 20 false).2 = .error .expirada :=
  ((C4_orden_precondiciones dbExpirada "E3" "u@cliente.cl" "U" "CLIENTE"
      [unaRespuesta] 20 false).2 encuestaExpirada rfl).2.2.1
    (by decide) (by decide) (by decide)

/-! ## Claim C5 -/

/-- Claim C5: the status-derivation function is pure and total on
percentages and equals the reference definition with inclusive
lower-bound thresholds; with the default thresholds 0.95 and 0.80 it maps
95.0 to GREEN, 94.99 to YELLOW, 80.0 to YELLOW and 79.99 to RED. -/
theorem C5_clasificacion :
    (∀ p : ℚ, calcular_estado_semaforo p = clasificar_spec (95 / 100) (80 / 100) p) ∧
    calcular_estado_semaforo 95 = "VERDE" ∧
    calcular_estado_semaforo (9499 / 100) = "AMARILLO" ∧
    calcular_estado_semaforo 80 = "AMARILLO" ∧
    calcular_estado_semaforo (7999 / 100) = "ROJO" := by
  refine ⟨fun p => rfl, ?_, ?_, ?_, ?_⟩ <;>
    norm_num [calcular_estado_semaforo, SEMAFORO_VERDE, SEMAFORO_AMARILLO]

/-! ## Claim C6 -/

/-- Claim C6 counterexample: a principal with no visible coverage rows
has a required guard count summing to 0, yet the general-coverage
endpoint classifies the state as ROJO, not GRIS: the SQL SUM over no rows
is NULL and the handler guard compares None with 0. -/
theorem C6_contraejemplo :
    ((filas_agregadas_visibles dbVacia "u@x.cl").map
      (fun ci => ci.total_guardias_requeridos)).sum = 0 ∧
    (get_cobertura_general dbVacia "u@x.cl").porcentaje_cobertura_general = 0 ∧
    (get_cobertura_general dbVacia "u@x.cl").estado_semaforo = "ROJO" := by
  refine ⟨rfl, rfl, ?_⟩
  norm_num [get_cobertura_general, filas_agregadas_visibles, dbVacia,
    calcular_estado_semaforo, SEMAFORO_VERDE, SEMAFORO_AMARILLO]

/-- Claim C6 (amended): when the principal has at least one visible
coverage row and the visible required guard counts sum to 0, the
general-coverage endpoint returns porcentaje 0 and estado GRIS, never a
division error; when the principal has no visible coverage rows the
endpoint returns porcentaje 0 with estado ROJO. -/
theorem C6_enmendada (db : CoberturaDB) (user_email : String) :
    (¬ filas_agregadas_visibles db user_email = [] →
      ((filas_agregadas_visibles db user_email).map
        (fun ci => ci.total_guardias_requeridos)).sum = 0 →
      get_cobertura_general db user_email =
        { total_turnos_activos := some 0, turnos_cubiertos := some 0,
          porcentaje_cobertura_general := 0, estado_semaforo := "GRIS" }) ∧
    (filas_agregadas_visibles db user_email = [] →
      (get_cobertura_general db user_email).porcentaje_cobertura_general = 0 ∧
      (get_cobertura_general db user_email).estado_semaforo = "ROJO") := by
  constructor
  · intro hne hsum
    simp [get_cobertura_general, List.isEmpty_iff, hne, hsum]
  · intro hemp
    norm_num [get_cobertura_general, hemp, calcular_estado_semaforo,
      SEMAFORO_VERDE, SEMAFORO_AMARILLO]

/-- Witness for C6_enmendada at a state with one visible row requiring
zero guards. -/
theorem C6_testigo :
    get_cobertura_general dbCeroRequeridos "u@x.cl" =
      { total_turnos_activos := some 0, turnos_cubiertos := some 0,
        porcentaje_cobertura_general := 0, estado_semaforo := "GRIS" } :=
  (C6_enmendada dbCeroRequeridos "u@x.cl").1 (by decide) (by decide)

/-! ## Claim C7 -/

/-- Claim C7 counterexample: on the concrete pending shared survey both
racing callers pass the read-time precondition checks, the first writer
records its completion, and the second caller receives success (answer
count 1), not Conflict, because the source never inspects how many rows
the conditional UPDATE modified. -/
theorem C7_contraejemplo :
    precondicion_fallida dbCompartida "E2" "ana@cliente.cl" 0 = none ∧
    precondicion_fallida dbCompartida "E2" "beto@cliente.cl" 0 = none ∧
    (respuesta_carrera dbCompartida "E2" "ana@cliente.cl" "Ana" "CLIENTE"
        "beto@cliente.cl" "Beto" "CLIENTE" [unaRespuesta] [unaRespuesta] 0).2.2 =
      .ok 1 ∧
    (respuesta_carrera dbCompartida "E2" "ana@cliente.cl" "Ana" "CLIENTE"
        "beto@cliente.cl" "Beto" "CLIENTE" [unaRespuesta] [unaRespuesta] 0).1.solicitudes =
      [completar "ana@cliente.cl" "Ana" "cliente" 0 encuestaCompartida] := by
  refine ⟨rfl, rfl, rfl, by decide⟩

/-- Claim C7 (amended): given a shared survey in PENDING on which both
racing callers pass the read-time checks, exactly one caller (the first
writer) transitions the survey to COMPLETED with its responder recorded,
the conditional update of the second writer modifies no survey row, and
the second caller nevertheless receives a success response with its own
answer count rather than Conflict. -/
theorem C7_enmendada (db0 : EncuestasDB) (e : Encuesta) (eid : String)
    (emailA nombreA rolA emailB nombreB rolB : String)
    (answersA answersB : List AnswerInput) (now : Int) :
    db0.solicitudes.filter (fun r => r.encuesta_id == eid) = [e] →
    e.modo = "compartida" → e.estado = "pendiente" → ¬ e.fecha_limite < now →
    (respuesta_carrera db0 eid emailA nombreA rolA emailB nombreB rolB
        answersA answersB now).2.1 = .ok answersA.length ∧
    (respuesta_carrera db0 eid emailA nombreA rolA emailB nombreB rolB
        answersA answersB now).2.2 = .ok answersB.length ∧
    (respuesta_carrera db0 eid emailA nombreA rolA emailB nombreB rolB
        answersA answersB now).1.solicitudes.filter (fun r => r.encuesta_id == eid) =
      [completar emailA nombreA (tipo_respuesta_de rolA) now e] ∧
    (respuesta_carrera db0 eid emailA nombreA rolA emailB nombreB rolB
        answersA answersB now).1.solicitudes =
      marcar_completada db0.solicitudes eid emailA nombreA (tipo_respuesta_de rolA) now := by
  intro hfil hmodo hest hfecha
  have hfind : db0.solicitudes.find? (fun r => r.encuesta_id == eid) = some e :=
    encontrar_de_filtro _ _ _ hfil
  have hA : precondicion_fallida db0 eid emailA now = none := by
    simp [precondicion_fallida, hfind, hmodo, hest, hfecha]
  have hB : precondicion_fallida db0 eid emailB now = none := by
    simp [precondicion_fallida, hfind, hmodo, hest, hfecha]
  have hSA : (marcar_completada db0.solicitudes eid emailA nombreA
      (tipo_respuesta_de rolA) now).filter (fun r => r.encuesta_id == eid) =
      [completar emailA nombreA (tipo_respuesta_de rolA) now e] := by
    rw [marcar_filtro, hfil]
    simp [hest]
  have hident : marcar_completada
      (marcar_completada db0.solicitudes eid emailA nombreA (tipo_respuesta_de rolA) now)
      eid emailB nombreB (tipo_respuesta_de rolB) now =
      marcar_completada db0.solicitudes eid emailA nombreA (tipo_respuesta_de rolA) now := by
    apply marcar_identidad
    intro r hr
    cases hrid : r.encuesta_id == eid
    · simp [hrid]
    · have hmem : r ∈ (marcar_completada db0.solicitudes eid emailA nombreA
          (tipo_respuesta_de rolA) now).filter (fun s => s.encuesta_id == eid) :=
        List.mem_filter.mpr ⟨hr, hrid⟩
      rw [hSA] at hmem
      have hre : r = completar emailA nombreA (tipo_respuesta_de rolA) now e :=
        List.mem_singleton.mp hmem
      subst hre
      simp [completar]
  refine ⟨?_, ?_, ?_, ?_⟩ <;>
    simp [respuesta_carrera, hA, hB, responder_escritura, hident, hSA]

/-- Witness for C7_enmendada at the concrete pending shared survey. -/
theorem C7_testigo :
    (respuesta_carrera dbCompartida "E2" "ana@cliente.cl" "Ana" "CLIENTE"
        "beto@cliente.cl" "Beto" "CLIENTE" [unaRespuesta] [unaRespuesta] 0).2.1 =
      .ok 1 ∧
    (respuesta_carrera dbCompartida "E2" "ana@cliente.cl" "Ana" "CLIENTE"
        "beto@cliente.cl" "Beto" "CLIENTE" [unaRespuesta] [unaRespuesta] 0).2.2 =
      .ok 1 ∧
    (respuesta_carrera dbCompartida "E2" "ana@cliente.cl" "Ana" "CLIENTE"
        "beto@cliente.cl" "Beto" "CLIENTE" [unaRespuesta] [unaRespuesta]
        0).1.solicitudes.filter (fun r => r.encuesta_id == "E2") =
      [completar "ana@cliente.cl" "Ana" (tipo_respuesta_de "CLIENTE") 0
        encuestaCompartida] ∧
    (respuesta_carrera dbCompartida "E2" "ana@cliente.cl" "Ana" "CLIENTE"
        "beto@cliente.cl" "Beto" "CLIENTE" [unaRespuesta] [unaRespuesta]
        0).1.solicitudes =
      marcar_completada dbCompartida.solicitudes "E2" "ana@cliente.cl" "Ana"
        (tipo_respuesta_de "CLIENTE") 0 :=
  C7_enmendada dbCompartida encuestaCompartida "E2" "ana@cliente.cl" "Ana" "CLIENTE"
    "beto@cliente.cl" "Beto" "CLIENTE" [unaRespuesta] [unaRespuesta] 0
    (by decide) rfl rfl (by decide)

/-! ## Claim C8 -/

/-- Claim C8: the credential-migration side effect is idempotent: after a
first resolve has stored the verified subject id, a second migration with
the same id matches zero stored rows and leaves the table unchanged. -/
theorem C8_migracion_idempotente (firebase_uid user_email : String)
    (usuarios : List Usuario) :
    filas_modificadas firebase_uid user_email
        (migrar_firebase_uid firebase_uid user_email usuarios) = 0 ∧
    migrar_firebase_uid firebase_uid user_email
        (migrar_firebase_uid firebase_uid user_email usuarios) =
      migrar_firebase_uid firebase_uid user_email usuarios := by
  have paso : ∀ u : Usuario,
      necesita_migracion firebase_uid user_email
        (if necesita_migracion firebase_uid user_email u
         then { u with firebase_uid := some firebase_uid } else u) = false := by
    intro u
    cases h : necesita_migracion firebase_uid user_email u
    · simp [h]
    · simp only [h, if_true]
      simp [necesita_migracion]
  induction usuarios with
  | nil => simp [filas_modificadas, migrar_firebase_uid]
  | cons u rest ih =>
    constructor
    · simpa [filas_modificadas, migrar_firebase_uid, paso u] using ih.1
    · simpa [migrar_firebase_uid, paso u] using ih.2

/-! ## Claim C9 -/

/-- Claim C9 counterexample: for the role JEFE_WFSA, a member of the
listing role set but not of the view-responses role set, a completed
individual survey addressed to another recipient is marked viewable in
the listing while the view-responses operation returns Forbidden. -/
theorem C9_contraejemplo :
    es_wfsa_listado "JEFE_WFSA" = true ∧
    es_wfsa_respuestas "JEFE_WFSA" = false ∧
    puede_ver_respuestas_listado (es_wfsa_listado "JEFE_WFSA")
      encuestaIndividualRespondida "jefe@wfsa.cl" = true ∧
    ver_respuestas_encuesta dbIndividualRespondida "E9" "jefe@wfsa.cl" "JEFE_WFSA" =
      .error .forbidden := by
  refine ⟨by decide, by decide, by decide, rfl⟩

/-- Claim C9 (amended): the two operations use different operator-side
role sets; for every role outside their symmetric difference
(SUBGERENTE_WFSA, JEFE_WFSA, SUBGERENTE_JEFE_WFSA) the two predicates
agree, and then a completed individual survey addressed to another
recipient is marked viewable in the listing exactly when the
view-responses operation grants access. -/
theorem C9_enmendada (rol : String) (db : EncuestasDB) (e : Encuesta)
    (eid user_email : String) :
    (["SUBGERENTE_WFSA", "JEFE_WFSA", "SUBGERENTE_JEFE_WFSA"].contains rol) = false →
    db.solicitudes.find? (fun r => r.encuesta_id == eid) = some e →
    e.estado = "completada" → e.modo = "individual" →
    e.email_destinatario ≠ some user_email →
    es_wfsa_listado rol = es_wfsa_respuestas rol ∧
    (puede_ver_respuestas_listado (es_wfsa_listado rol) e user_email = true ↔
      ver_respuestas_encuesta db eid user_email rol =
        .ok (db.respuestas.filter (fun r => r.encuesta_id == eid))) := by
  intro hrol hfind hest hmodo hdest
  have hsets : es_wfsa_listado rol = es_wfsa_respuestas rol := by
    simp [es_wfsa_listado, es_wfsa_respuestas, List.contains] at hrol ⊢
    push_neg at hrol
    obtain ⟨h1, h2, h3⟩ := hrol
    simp [h1, h2, h3]
  refine ⟨hsets, ?_⟩
  rw [hsets]
  cases hw : es_wfsa_respuestas rol
  · simp [puede_ver_respuestas_listado, ver_respuestas_encuesta, hw, hfind,
      hest, hmodo, hdest]
  · simp [puede_ver_respuestas_listado, ver_respuestas_encuesta, hw, hfind, hest]

/-- Witness for C9_enmendada at the role ADMIN_WFSA, a member of both
role sets. -/
theorem C9_testigo :
    es_wfsa_listado "ADMIN_WFSA" = es_wfsa_respuestas "ADMIN_WFSA" ∧
    (puede_ver_respuestas_listado (es_wfsa_listado "ADMIN_WFSA")
        encuestaIndividualRespondida "otro@cliente.cl" = true ↔
      ver_respuestas_encuesta dbIndividualRespondida "E9" "otro@cliente.cl"
          "ADMIN_WFSA" =
        .ok (dbIndividualRespondida.respuestas.filter
          (fun r => r.encuesta_id == "E9"))) :=
  C9_enmendada "ADMIN_WFSA" dbIndividualRespondida encuestaIndividualRespondida
    "E9" "otro@cliente.cl" (by decide) rfl rfl rfl (by decide)

/-! ## Claim C10 -/

/-- Claim C10: whenever the precondition checks pass and the answer
insert reports no errors, respond returns success with
respuestas_guardadas equal to the length of the submitted answers list;
for an empty list the survey state still goes through the conditional
completion update while no answer row is inserted. The success value is
produced without examining how many rows the conditional update
modified. -/
theorem C10_exito_conteo (db : EncuestasDB) (eid user_email user_nombre rol_id : String)
    (answers : List AnswerInput) (now : Int) :
    precondicion_fallida db eid user_email now = none →
    (responder_encuesta db eid user_email user_nombre rol_id answers now false).2 =
      .ok answers.length ∧
    (answers = [] →
      (responder_encuesta db eid user_email user_nombre rol_id answers now false).1 =
        { solicitudes := marcar_completada db.solicitudes eid user_email user_nombre
            (tipo_respuesta_de rol_id) now,
          respuestas := db.respuestas }) := by
  intro h
  constructor
  · simp [responder_encuesta, h, responder_escritura]
  · intro ha; subst ha
    simp [responder_encuesta, h, responder_escritura]

/-- Witness for C10_exito_conteo: an empty answer list on a survey whose
row is already completed (so the conditional update modifies nothing)
still yields success with count 0. -/
theorem C10_testigo :
    (responder_encuesta dbIndividualRespondida "E9" "destinatario@cliente.cl" "D"
        "CLIENTE" [] 0 false).2 = .ok 0 ∧
    (responder_encuesta dbIndividualRespondida "E9" "destinatario@cliente.cl" "D"
        "CLIENTE" [] 0 false).1 =
      { solicitudes := marcar_completada dbIndividualRespondida.solicitudes "E9"
          "destinatario@cliente.cl" "D" (tipo_respuesta_de "CLIENTE") 0,
        respuestas := dbIndividualRespondida.respuestas } :=
  ⟨(C10_exito_conteo dbIndividualRespondida "E9" "destinatario@cliente.cl" "D"
      "CLIENTE" [] 0 (by decide)).1,
   (C10_exito_conteo dbIndividualRespondida "E9" "destinatario@cliente.cl" "D"
      "CLIENTE" [] 0 (by decide)).2 rfl⟩
